import Mathlib

/-!
Verification development for the location-sharing frontend (`src/src/App.js`).

The client keeps five pieces of React state (`username`, `locations`,
`shareUrl`, `error`, `isLoading`); we embed them as an explicit `AppState`
record.  Every asynchronous interaction (snapshot fetch, socket events,
geolocation capture, share submission) is embedded as a pure state
transformer parameterised by the outcome of the external interaction, so
each handler of the source becomes one Lean function.

Coordinates are JS numbers; the claims only compare exact constants, so we
model them as `Rat`.  JS truthiness of the `locationId` string (used in
`if (locationId)` / `if (!locationId)`) is modelled by `optTruthy`.
-/

/-- A location record as produced by the backend (`_id`, `username`,
`latitude`, `longitude`, `timestamp`). -/
structure LocationRecord where
  _id : String
  username : String
  latitude : Rat
  longitude : Rat
  timestamp : Int
  deriving DecidableEq, Repr

/-- The component state of `App`: the five `useState` hooks. -/
structure AppState where
  username : String
  locations : List LocationRecord
  shareUrl : String
  error : String
  isLoading : Bool
  deriving DecidableEq, Repr

/-- JS truthiness of `urlParams.get('locationId')`: `null` and the empty
string are falsy, any other string is truthy. -/
def optTruthy : Option String → Bool
  | none => false
  | some s => !(s == "")

/-- Default latitude 51.505 used for the fallback record and the default
map center. -/
def defaultLat : Rat := (51505 : Rat) / 1000

/-- Default longitude -0.09 used for the fallback record and the default
map center. -/
def defaultLng : Rat := (-9 : Rat) / 100

/-- Error message set when the snapshot fetch throws. -/
def fetchFailMsg : String :=
  "Failed to fetch locations. Is the backend running at http://localhost:5000?"

/-- Error message set by the `connect_error` socket handler. -/
def connectErrMsg : String :=
  "Cannot connect to backend. Please ensure the server is running on http://localhost:5000"

/-- Error message for an empty username in `shareLocation`. -/
def usernameMsg : String := "Please enter a username"

/-- Error message when `navigator.geolocation` is absent. -/
def geoUnsupportedMsg : String := "Geolocation is not supported by this browser."

/-- Error message when the share POST throws. -/
def shareFailMsg : String := "Error sharing location. Is the backend running?"

/-- The synthetic placeholder record substituted on a transport failure of
the snapshot fetch (`_id: 'fallback'`, fixed coordinates, `new Date()`
timestamp passed in as `now`). -/
def fallbackRecord (now : Int) : LocationRecord :=
  { _id := "fallback", username := "Fallback User",
    latitude := defaultLat, longitude := defaultLng, timestamp := now }

/-- Outcome of `fetch('/api/locations/' + locationId)` followed by
`res.json()`: a JSON body whose `error` field is truthy, a JSON body taken
as a record, or a thrown transport failure (network unreachable, non-JSON
body, timeout). -/
inductive SingleFetchResult where
  | errorField (msg : String)
  | record (r : LocationRecord)
  | throwTransport
  deriving DecidableEq, Repr

/-- Outcome of `fetch('/api/locations')` followed by `res.json()`. -/
inductive AllFetchResult where
  | records (rs : List LocationRecord)
  | throwTransport
  deriving DecidableEq, Repr

/-- The `fetchLocations` effect of the mount hook: branches on the truthiness
of `locationId`; on a truthy `data.error` sets the error and empties the
collection; on a thrown transport failure substitutes the fallback record;
always clears `isLoading` in the `finally` block. -/
def fetchLocations (locationId : Option String) (single : SingleFetchResult)
    (all : AllFetchResult) (now : Int) (s : AppState) : AppState :=
  let s1 :=
    if optTruthy locationId then
      match single with
      | .errorField msg => { s with error := msg, locations := [] }
      | .record r => { s with locations := [r] }
      | .throwTransport =>
          { s with error := fetchFailMsg, locations := [fallbackRecord now] }
    else
      match all with
      | .records rs => { s with locations := rs }
      | .throwTransport =>
          { s with error := fetchFailMsg, locations := [fallbackRecord now] }
  { s1 with isLoading := false }

/-- The `socket.on('newLocation')` handler: when `locationId` is falsy the
incoming record is appended to the collection, otherwise the event is
ignored. -/
def onNewLocation (locationId : Option String) (location : LocationRecord)
    (s : AppState) : AppState :=
  if !(optTruthy locationId) then
    { s with locations := s.locations ++ [location] }
  else s

/-- The `socket.on('connect_error')` handler: sets the connectivity error
message and nothing else. -/
def onConnectError (s : AppState) : AppState := { s with error := connectErrMsg }

/-- Outcome of `navigator.geolocation.getCurrentPosition`: a position or an
error carrying a message. -/
inductive GeoOutcome where
  | pos (latitude longitude : Rat)
  | geoErr (msg : String)
  deriving DecidableEq, Repr

/-- Outcome of the share POST followed by `res.json()`: a record assigned by
the backend, a JSON body with a truthy `error` field, or a thrown transport
failure. -/
inductive PostOutcome where
  | ok (data : LocationRecord)
  | errorField (msg : String)
  | throwTransport
  deriving DecidableEq, Repr

/-- Which external effects a `shareLocation` run performed:
`getCurrentPosition` called, POST sent. -/
structure ShareEffects where
  captureAttempted : Bool
  postSent : Bool
  deriving DecidableEq, Repr

/-- The `shareLocation` handler together with its effect trace.  An empty
username or a missing geolocation capability returns before capturing the
position; a capture error returns before the POST; a truthy `data.error`
or a thrown POST only sets the error; on success the share URL is built
from the origin and `data._id`, the record is appended when `locationId`
is falsy, and the error is cleared. -/
def shareLocationFull (locationId : Option String) (origin : String)
    (geoAvailable : Bool) (geo : GeoOutcome) (post : PostOutcome)
    (s : AppState) : AppState × ShareEffects :=
  if s.username == "" then
    ({ s with error := usernameMsg }, ⟨false, false⟩)
  else if !geoAvailable then
    ({ s with error := geoUnsupportedMsg }, ⟨false, false⟩)
  else
    match geo with
    | .geoErr msg =>
        ({ s with error := "Error getting location: " ++ msg }, ⟨true, false⟩)
    | .pos _ _ =>
        match post with
        | .errorField msg => ({ s with error := msg }, ⟨true, true⟩)
        | .throwTransport => ({ s with error := shareFailMsg }, ⟨true, true⟩)
        | .ok data =>
            let url := origin ++ "?locationId=" ++ data._id
            let s1 := { s with shareUrl := url }
            let s2 :=
              if !(optTruthy locationId) then
                { s1 with locations := s1.locations ++ [data] }
              else s1
            ({ s2 with error := "" }, ⟨true, true⟩)

/-- The resulting state of `shareLocation`, without the effect trace. -/
def shareLocation (locationId : Option String) (origin : String)
    (geoAvailable : Bool) (geo : GeoOutcome) (post : PostOutcome)
    (s : AppState) : AppState :=
  (shareLocationFull locationId origin geoAvailable geo post s).1

/-- The derived map center: coordinates of `locations[locations.length - 1]`
when the collection is non-empty, else the fixed default `[51.505, -0.09]`. -/
def mapCenter (locations : List LocationRecord) : Rat × Rat :=
  if h : 0 < locations.length then
    ((locations.get ⟨locations.length - 1, by omega⟩).latitude,
     (locations.get ⟨locations.length - 1, by omega⟩).longitude)
  else (defaultLat, defaultLng)

/-- The rendered output of `App`: the loading screen, the error-only screen
(rendered whenever `error` is truthy), or the main screen with the input
group, the optional share-URL box, the map (markers and center) and the
location list. -/
inductive RenderedPage where
  | loading
  | errorOnly (msg : String)
  | main (showInput : Bool) (showShareUrl : Bool)
      (locations : List LocationRecord) (center : Rat × Rat)
  deriving DecidableEq, Repr

/-- The render function of `App`: `isLoading` wins, then a truthy `error`
short-circuits to the error-only screen, otherwise the main screen is shown
with the collection and the derived center. -/
def render (locationId : Option String) (s : AppState) : RenderedPage :=
  if s.isLoading then .loading
  else if !(s.error == "") then .errorOnly s.error
  else
    .main (!(optTruthy locationId))
      ((!(s.shareUrl == "")) && (!(optTruthy locationId)))
      s.locations (mapCenter s.locations)

/-- The location records visible in a rendered page (the map markers and the
list items of the main screen; none on the loading or error screens). -/
def renderedLocations : RenderedPage → List LocationRecord
  | .main _ _ locs _ => locs
  | _ => []

/-- Concrete record with id `a`, coordinates (1, 2). -/
def recA1 : LocationRecord :=
  { _id := "a", username := "alice", latitude := 1, longitude := 2, timestamp := 10 }

/-- Concrete record with id `a`, coordinates (9, 9). -/
def recA9 : LocationRecord :=
  { _id := "a", username := "alice", latitude := 9, longitude := 9, timestamp := 20 }

/-- Concrete record with id `b`. -/
def recB : LocationRecord :=
  { _id := "b", username := "bob", latitude := 3, longitude := 4, timestamp := 5 }

/-- A blank initial state, as set up by the `useState` initialisers. -/
def emptyState : AppState :=
  { username := "", locations := [], shareUrl := "", error := "", isLoading := true }

/-- A state after a successful all-locations snapshot containing `recA1`. -/
def loadedState : AppState :=
  { username := "u", locations := [recA1], shareUrl := "", error := "", isLoading := false }

/-- Claim C1 (code evaluation at the failing input): the `newLocation`
handler appends unconditionally, so delivering a record with id `a` to a
collection that already holds a record with id `a` yields two records with
that id instead of replacing the existing one in place. -/
theorem C1_duplicate_id_appended :
    (onNewLocation none recA9
      { emptyState with locations := [recA1], isLoading := false }).locations
      = [recA1, recA9] ∧ recA1._id = recA9._id := by
  constructor <;> rfl

/-- Claim C2: a transport failure of the snapshot fetch (in either mode)
leaves the collection equal to exactly one synthetic placeholder record
with fixed coordinates latitude 51.505 and longitude -0.09, and surfaces a
non-empty error message. -/
theorem C2_transport_failure_fallback (locationId : Option String) (now : Int)
    (s : AppState) :
    (fetchLocations locationId .throwTransport .throwTransport now s).locations
      = [fallbackRecord now] ∧
    (fallbackRecord now).latitude = (51505 : Rat) / 1000 ∧
    (fallbackRecord now).longitude = (-9 : Rat) / 100 ∧
    (fetchLocations locationId .throwTransport .throwTransport now s).error
      = fetchFailMsg ∧
    fetchFailMsg ≠ "" := by
  cases h : optTruthy locationId <;>
    simp [fetchLocations, h, fallbackRecord, defaultLat, defaultLng, fetchFailMsg]

/-- Claim C3: when the single-record fetch returns a body with a truthy
`error` field, the collection is set empty, the error message is surfaced,
and no placeholder record is substituted. -/
theorem C3_not_found_empties (locationId : Option String) (msg : String)
    (all : AllFetchResult) (now : Int) (s : AppState)
    (hmode : optTruthy locationId = true) (hmsg : msg ≠ "") :
    (fetchLocations locationId (.errorField msg) all now s).locations = [] ∧
    (fetchLocations locationId (.errorField msg) all now s).error = msg ∧
    (fetchLocations locationId (.errorField msg) all now s).error ≠ "" := by
  simp [fetchLocations, hmode, hmsg]

/-- Witness for C3 at `locationId = some "x"`, `msg = "not found"`. -/
theorem C3_not_found_empties_witness :
    optTruthy (some "x") = true ∧ "not found" ≠ "" ∧
    (fetchLocations (some "x") (.errorField "not found") .throwTransport 0
      emptyState).locations = [] := by
  refine ⟨by decide, by decide, ?_⟩
  exact (C3_not_found_empties (some "x") "not found" .throwTransport 0 emptyState
    (by decide) (by decide)).1

/-- Claim C4: in single-location mode (a truthy `locationId` in the page
address) a delivered `newLocation` event leaves the whole state — in
particular the collection — unchanged. -/
theorem C4_single_mode_ignores_stream (locationId : Option String)
    (loc : LocationRecord) (s : AppState) (hmode : optTruthy locationId = true) :
    onNewLocation locationId loc s = s := by
  simp [onNewLocation, hmode]

/-- Witness for C4 at `locationId = some "x"`. -/
theorem C4_single_mode_ignores_stream_witness :
    optTruthy (some "x") = true ∧
    onNewLocation (some "x") recB loadedState = loadedState :=
  ⟨by decide, C4_single_mode_ignores_stream (some "x") recB loadedState (by decide)⟩

/-- Claim C5: a successful share whose backend record has id `xyz` sets the
share URL to `origin ++ "?locationId=xyz"`; the collection gains the
returned record exactly when `locationId` is falsy (all-locations mode) and
is unchanged when it is truthy (single-location mode). -/
theorem C5_share_success (locationId : Option String) (origin : String)
    (lat lng : Rat) (data : LocationRecord) (s : AppState)
    (huser : s.username ≠ "") (hid : data._id = "xyz") :
    (shareLocation locationId origin true (.pos lat lng) (.ok data) s).shareUrl
      = origin ++ "?locationId=xyz" ∧
    (optTruthy locationId = false →
      (shareLocation locationId origin true (.pos lat lng) (.ok data) s).locations
        = s.locations ++ [data]) ∧
    (optTruthy locationId = true →
      (shareLocation locationId origin true (.pos lat lng) (.ok data) s).locations
        = s.locations) := by
  have hu : (s.username == "") = false := by
    simpa using huser
  have hlit : "?locationId=" ++ "xyz" = "?locationId=xyz" := rfl
  cases h : optTruthy locationId <;>
    simp [shareLocation, shareLocationFull, hu, h, hid, String.append_assoc, hlit]

/-- Witness for C5 at a concrete state with a non-empty username and a
backend record with id `xyz`. -/
theorem C5_share_success_witness :
    loadedState.username ≠ "" ∧
    ({ recB with _id := "xyz" })._id = "xyz" ∧
    (shareLocation none "http://example.com" true (.pos 3 4)
      (.ok { recB with _id := "xyz" }) loadedState).shareUrl
      = "http://example.com?locationId=xyz" :=
  ⟨by decide, by decide,
    (C5_share_success none "http://example.com" 3 4 { recB with _id := "xyz" }
      loadedState (by decide) (by decide)).1⟩

/-- Claim C6: the derived map viewport center equals the coordinates of the
last record in insertion order when the collection is non-empty (appending
a record makes it the center, regardless of its timestamp), and equals the
fixed default (51.505, -0.09) when the collection is empty. -/
theorem C6_map_center_last_insertion :
    (∀ (locs : List LocationRecord) (r : LocationRecord),
      mapCenter (locs ++ [r]) = (r.latitude, r.longitude)) ∧
    mapCenter [] = ((51505 : Rat) / 1000, (-9 : Rat) / 100) := by
  constructor
  · intro locs r
    have hlen : 0 < (locs ++ [r]).length := by simp
    simp [mapCenter, hlen]
  · rfl

/-- Claim C7: in all-locations mode (falsy `locationId`) a stream event
whose id is unseen in the collection appends its record at the end, leaving
the earlier records and their order intact. -/
theorem C7_all_mode_appends (locationId : Option String) (loc : LocationRecord)
    (s : AppState) (hmode : optTruthy locationId = false)
    (hunseen : ∀ r ∈ s.locations, r._id ≠ loc._id) :
    (onNewLocation locationId loc s).locations = s.locations ++ [loc] := by
  simp [onNewLocation, hmode]

/-- Witness for C7: the snapshot scenario `[a]` plus a stream event `b`
yields `[a, b]`. -/
theorem C7_all_mode_appends_witness :
    optTruthy none = false ∧
    (∀ r ∈ loadedState.locations, r._id ≠ recB._id) ∧
    (onNewLocation none recB loadedState).locations = [recA1, recB] := by
  refine ⟨by decide, by decide, ?_⟩
  have h := C7_all_mode_appends none recB loadedState (by decide) (by decide)
  simpa [loadedState] using h

/-- Claim C8: an empty participant name, or a missing geolocation
capability, makes `shareLocation` report the corresponding error
immediately: no position capture is attempted, no POST is sent, and the
collection and share URL are untouched. -/
theorem C8_share_guard_no_effects (locationId : Option String) (origin : String)
    (geoAvailable : Bool) (geo : GeoOutcome) (post : PostOutcome) (s : AppState)
    (h : s.username = "" ∨ geoAvailable = false) :
    (shareLocationFull locationId origin geoAvailable geo post s).2.captureAttempted
      = false ∧
    (shareLocationFull locationId origin geoAvailable geo post s).2.postSent = false ∧
    (shareLocationFull locationId origin geoAvailable geo post s).1.locations
      = s.locations ∧
    (shareLocationFull locationId origin geoAvailable geo post s).1.shareUrl
      = s.shareUrl ∧
    (shareLocationFull locationId origin geoAvailable geo post s).1.error
      = (if s.username = "" then usernameMsg else geoUnsupportedMsg) := by
  by_cases hu : s.username = ""
  · have hb : (s.username == "") = true := by simpa using hu
    simp [shareLocationFull, hb, hu]
  · have hb : (s.username == "") = false := by simpa using hu
    have hg : geoAvailable = false := by
      rcases h with h | h
      · exact absurd h hu
      · exact h
    subst hg
    simp [shareLocationFull, hb, hu]

/-- Witness for C8 at an empty username. -/
theorem C8_share_guard_no_effects_witness :
    (emptyState.username = "" ∨ true = false) ∧
    (shareLocationFull none "http://example.com" true (.pos 1 2) (.ok recB)
      emptyState).2.captureAttempted = false := by
  refine ⟨Or.inl rfl, ?_⟩
  exact (C8_share_guard_no_effects none "http://example.com" true (.pos 1 2)
    (.ok recB) emptyState (Or.inl rfl)).1

/-- Claim C9 counterexample: with snapshot data `[recA1]` loaded, a
connection error leaves the data in the collection, but the page renders
the error-only screen — the location list and map are not in the rendered
output, contradicting the claim that they stay visible alongside the
connectivity error. -/
theorem C9_counterexample :
    loadedState.locations = [recA1] ∧
    (onConnectError loadedState).locations = [recA1] ∧
    render none (onConnectError loadedState) = .errorOnly connectErrMsg ∧
    renderedLocations (render none (onConnectError loadedState)) = [] := by
  exact ⟨rfl, rfl, rfl, rfl⟩

/-- Claim C9 as amended: after a connection error the collection retains
the loaded snapshot data, but the rendered output is the error-only
screen — no location list or map is shown while the error is set. -/
theorem C9_amended_error_view (locationId : Option String) (s : AppState)
    (h : s.isLoading = false) :
    (onConnectError s).locations = s.locations ∧
    render locationId (onConnectError s) = .errorOnly connectErrMsg ∧
    renderedLocations (render locationId (onConnectError s)) = [] := by
  have hc : (connectErrMsg == "") = false := by decide
  have hr : render locationId (onConnectError s) = .errorOnly connectErrMsg := by
    simp [render, onConnectError, h, hc]
  refine ⟨rfl, hr, ?_⟩
  rw [hr]
  rfl

/-- Witness for the amended C9 at the loaded concrete state. -/
theorem C9_amended_error_view_witness :
    loadedState.isLoading = false ∧
    render none (onConnectError loadedState) = .errorOnly connectErrMsg :=
  ⟨rfl, (C9_amended_error_view none loadedState rfl).2.1⟩

/-- Claim C10: every failure path of a share attempt (empty username,
missing capability, capture error, backend validation error with a truthy
message, POST transport failure) leaves the share URL, the collection, the
username and the loading flag exactly as before; only a non-empty error
message is set. -/
theorem C10_share_failure_atomicity (locationId : Option String) (origin : String)
    (geoAvailable : Bool) (geo : GeoOutcome) (post : PostOutcome) (s : AppState)
    (h : s.username = "" ∨ geoAvailable = false ∨ (∃ m, geo = .geoErr m) ∨
      (∃ m, m ≠ "" ∧ post = .errorField m) ∨ post = .throwTransport) :
    (shareLocation locationId origin geoAvailable geo post s).shareUrl
      = s.shareUrl ∧
    (shareLocation locationId origin geoAvailable geo post s).locations
      = s.locations ∧
    (shareLocation locationId origin geoAvailable geo post s).username
      = s.username ∧
    (shareLocation locationId origin geoAvailable geo post s).isLoading
      = s.isLoading ∧
    (shareLocation locationId origin geoAvailable geo post s).error ≠ "" := by
  by_cases hu : s.username = ""
  · have hb : (s.username == "") = true := by simpa using hu
    have hred : shareLocation locationId origin geoAvailable geo post s
        = { s with error := usernameMsg } := by
      simp [shareLocation, shareLocationFull, hb]
    rw [hred]
    exact ⟨rfl, rfl, rfl, rfl, by show usernameMsg ≠ ""; decide⟩
  · have hb : (s.username == "") = false := by simpa using hu
    cases hg : geoAvailable with
    | false =>
      have hred : shareLocation locationId origin false geo post s
          = { s with error := geoUnsupportedMsg } := by
        simp [shareLocation, shareLocationFull, hb]
      rw [hred]
      exact ⟨rfl, rfl, rfl, rfl, by show geoUnsupportedMsg ≠ ""; decide⟩
    | true =>
      cases geo with
      | geoErr m =>
        have hred : shareLocation locationId origin true (.geoErr m) post s
            = { s with error := "Error getting location: " ++ m } := by
          simp [shareLocation, shareLocationFull, hb]
        rw [hred]
        refine ⟨rfl, rfl, rfl, rfl, ?_⟩
        intro heq
        have hl := congrArg String.length heq
        rw [String.length_append] at hl
        have h24 : "Error getting location: ".length = 24 := rfl
        have h0 : "".length = 0 := rfl
        rw [h24, h0] at hl
        omega
      | pos lat lng =>
        subst hg
        rcases h with h | h | ⟨m, hm⟩ | ⟨m, hm, hp⟩ | hp
        · exact absurd h hu
        · exact absurd h (by decide)
        · exact absurd hm (by simp)
        · subst hp
          have hred : shareLocation locationId origin true (.pos lat lng)
              (.errorField m) s = { s with error := m } := by
            simp [shareLocation, shareLocationFull, hb]
          rw [hred]
          exact ⟨rfl, rfl, rfl, rfl, hm⟩
        · subst hp
          have hred : shareLocation locationId origin true (.pos lat lng)
              .throwTransport s = { s with error := shareFailMsg } := by
            simp [shareLocation, shareLocationFull, hb]
          rw [hred]
          exact ⟨rfl, rfl, rfl, rfl, by show shareFailMsg ≠ ""; decide⟩

/-- Witness for C10 at an empty username. -/
theorem C10_share_failure_atomicity_witness :
    (emptyState.username = "" ∨ true = false ∨
      (∃ m, GeoOutcome.pos 1 2 = .geoErr m) ∨
      (∃ m, m ≠ "" ∧ PostOutcome.ok recB = .errorField m) ∨
      PostOutcome.ok recB = .throwTransport) ∧
    (shareLocation none "http://example.com" true (.pos 1 2) (.ok recB)
      emptyState).locations = emptyState.locations := by
  refine ⟨Or.inl rfl, ?_⟩
  exact (C10_share_failure_atomicity none "http://example.com" true (.pos 1 2)
    (.ok recB) emptyState (Or.inl rfl)).2.1
